import Mathlib

/-!
# Verification of the GoEM subscription service data layer

Shallow embedding of the repository's core: the subscription store and the
cost aggregator implemented in `internal/repository` (file `part_001`), the
data model (`part_002`, struct `model.Subscription`), the table schema with
its `CHECK (price > 0)` constraint (`part_003`), and the input validation
performed by the HTTP handler layer (`internal/handler/subscription.go`)
on the create/update paths.

Conventions of the embedding:
* UUID values (`id`, `user_id`) are modelled as `Nat`; only equality of
  identifiers is used by the code.
* The SQL table is modelled as a `List Subscription`; the `id` primary key
  and the `price` check are enforced by the modelled insert/update.
* SQL `TEXT` comparison (`end_date >= $1`, `start_date <= $2`,
  `ORDER BY start_date DESC`) is modelled as byte-lexicographic comparison
  of the stored strings (C collation), matching the "lexicographic string
  ordering actually stored" that the design notes describe.
* Fallible operations return `Except RepoError` together with the table
  state after the call.
-/

namespace GoEM

/-- Byte-lexicographic `≤` on lists of characters: the ordering a SQL
`TEXT` comparison applies to the stored "MM-YYYY" tokens. -/
def leChars : List Char → List Char → Bool
  | [], _ => true
  | _ :: _, [] => false
  | a :: as, b :: bs =>
    if a.toNat < b.toNat then true
    else if b.toNat < a.toNat then false
    else leChars as bs

/-- Byte-lexicographic `≤` on strings. -/
def strLe (a b : String) : Bool := leChars a.data b.data

/-- `model.Subscription` (`part_002`): the single entity of the system.
`EndDate` is a nullable column, hence `Option String`. -/
structure Subscription where
  id : Nat
  service_name : String
  price : Int
  user_id : Nat
  start_date : String
  end_date : Option String
deriving DecidableEq, Repr

/-- Error taxonomy of the spec. The Go code returns untyped `error`
values; the constructor records which kind the caller observes
(month-format message, "подписка не найдена" zero-rows message,
driver/constraint failure). -/
inductive RepoError where
  | validation : String → RepoError
  | notFound : String → RepoError
  | persistence : String → RepoError
deriving DecidableEq, Repr

/-- The month-format error message of `GetTotalCost` (`part_001` line 77). -/
def monthFormatMsg : String := "некорректный формат месяца: должен быть MM-YYYY"

/-- Go `getnum(value, fixed := true)` as used for the `"01"` (zero-padded
month) layout element of `time.Parse`: consume exactly two digits. -/
def getnum2 : List Char → Option (Nat × List Char)
  | c1 :: c2 :: rest =>
    if c1.isDigit && c2.isDigit then
      some ((c1.toNat - 48) * 10 + (c2.toNat - 48), rest)
    else none
  | _ => none

/-- Go parsing of the `"2006"` (four-digit year) layout element of
`time.Parse`: consume exactly four digits. -/
def getnum4 : List Char → Option (Nat × List Char)
  | c1 :: c2 :: c3 :: c4 :: rest =>
    if c1.isDigit && c2.isDigit && c3.isDigit && c4.isDigit then
      some (((c1.toNat - 48) * 1000 + (c2.toNat - 48) * 100 +
             (c3.toNat - 48) * 10 + (c4.toNat - 48)), rest)
    else none
  | _ => none

/-- `time.Parse("01-2006", s)` (`part_001` lines 110-113 and the handler's
copy): two fixed digits for the month, a literal hyphen, four digits for
the year, nothing left over, and the month in `1..12` (Go's
"month out of range" check). -/
def parseMonthYear (s : String) : Option (Nat × Nat) :=
  match getnum2 s.data with
  | none => none
  | some (m, rest1) =>
    match rest1 with
    | [] => none
    | c :: rest2 =>
      if c = '-' then
        match getnum4 rest2 with
        | none => none
        | some (y, rest3) =>
          if rest3 = [] then
            if 1 ≤ m && m ≤ 12 then some (m, y) else none
          else none
      else none

/-- `isValidMonthYear` (`part_001` lines 110-113): `time.Parse` succeeds. -/
def isValidMonthYear (s : String) : Bool := (parseMonthYear s).isSome

/-- A positional bind parameter passed alongside a query string. -/
inductive SqlArg where
  | s : String → SqlArg
  | u : Nat → SqlArg
deriving DecidableEq, Repr

/-- A parametrized SQL statement: its text and its positional arguments. -/
structure Stmt where
  text : String
  args : List SqlArg
deriving DecidableEq, Repr

/-- Query construction of `List` (`part_001` lines 48-63): base query,
then one appended predicate and one appended bind argument per present
filter, `user_id` first, with a running `argIndex` starting at 1. -/
def listStmt (user_id : Option Nat) (service_name : Option String) : Stmt :=
  let query := "SELECT * FROM subscriptions WHERE 1=1"
  let step1 :=
    match user_id with
    | some u =>
      (query ++ " AND user_id = $" ++ toString (1 : Nat), [SqlArg.u u], (2 : Nat))
    | none => (query, [], 1)
  let step2 :=
    match service_name with
    | some n =>
      (step1.1 ++ " AND service_name = $" ++ toString step1.2.2,
       step1.2.1 ++ [SqlArg.s n])
    | none => (step1.1, step1.2.1)
  { text := step2.1 ++ " ORDER BY start_date DESC", args := step2.2 }

/-- Query construction of `GetTotalCost` (`part_001` lines 80-98): fixed
aggregate query with the two month bounds as `$1`/`$2`, then one appended
predicate and argument per present filter, `user_id` first, `argIndex`
starting at 3. -/
def totalCostStmt (startMonth endMonth : String)
    (userID : Option Nat) (serviceName : Option String) : Stmt :=
  let query := "SELECT COALESCE(SUM(price), 0) FROM subscriptions " ++
    "WHERE (end_date IS NULL OR end_date >= $1) AND start_date <= $2"
  let args := [SqlArg.s startMonth, SqlArg.s endMonth]
  let step1 :=
    match userID with
    | some u =>
      (query ++ " AND user_id = $" ++ toString (3 : Nat), args ++ [SqlArg.u u],
       (4 : Nat))
    | none => (query, args, 3)
  let step2 :=
    match serviceName with
    | some n =>
      (step1.1 ++ " AND service_name = $" ++ toString step1.2.2,
       step1.2.1 ++ [SqlArg.s n])
    | none => (step1.1, step1.2.1)
  { text := step2.1, args := step2.2 }

/-- The conjunctive optional filters shared by `List` and `GetTotalCost`:
an absent filter imposes no restriction, a present one requires equality. -/
def matchesFilters (userID : Option Nat) (serviceName : Option String)
    (r : Subscription) : Bool :=
  (match userID with
   | none => true
   | some u => r.user_id = u) &&
  (match serviceName with
   | none => true
   | some n => r.service_name = n)

/-- The `WHERE` clause of `GetTotalCost` (`part_001` lines 83-84) on one
row: `(end_date IS NULL OR end_date >= $1) AND start_date <= $2` under
the stored lexicographic string ordering. -/
def overlaps (startMonth endMonth : String) (r : Subscription) : Bool :=
  (match r.end_date with
   | none => true
   | some e => strLe startMonth e) &&
  strLe r.start_date endMonth

/-- Repository `Create` (`part_001` lines 21-34): a single `INSERT` whose
outcome is decided by the table constraints of `part_003`
(`price INTEGER NOT NULL CHECK (price > 0)`, `id UUID PRIMARY KEY`); any
constraint violation surfaces as the driver error the function returns. -/
def Create (tbl : List Subscription) (sub : Subscription) :
    Except RepoError Unit × List Subscription :=
  if sub.price ≤ 0 || tbl.any (fun r => r.id = sub.id) then
    (.error (.persistence "нарушение ограничения таблицы subscriptions"), tbl)
  else
    (.ok (), tbl ++ [sub])

/-- The full create path of the program
(`handler.CreateSubscription`, `subscription.go` lines 52-108): validate
`service_name` non-empty, `price > 0` and `start_date` well-formed
"MM-YYYY" — each failure is a 400-level validation error issued before
any store access — then call the repository `Create` with a freshly
generated id (passed here explicitly as `newId`). The `user_id` UUID
parse of the handler is total in this model (`user_id : Nat`). -/
def CreateSubscription (tbl : List Subscription) (newId : Nat)
    (service_name : String) (price : Int) (user_id : Nat)
    (start_date : String) (end_date : Option String) :
    Except RepoError Unit × List Subscription :=
  if service_name = "" then
    (.error (.validation "service_name не может быть пустым"), tbl)
  else if price ≤ 0 then
    (.error (.validation "price должен быть положительным целым числом"), tbl)
  else if !(isValidMonthYear start_date) then
    (.error (.validation "start_date должен быть в формате MM-YYYY"), tbl)
  else
    Create tbl ⟨newId, service_name, price, user_id, start_date, end_date⟩

/-- `GetByID` (`part_001` lines 36-45): `SELECT * FROM subscriptions
WHERE id = $1`; `db.Get` yields the matching row or a not-found error. -/
def GetByID (tbl : List Subscription) (id : Nat) :
    Except RepoError Subscription :=
  match tbl.find? (fun r => r.id = id) with
  | some r => .ok r
  | none => .error (.notFound "sql: no rows in result set")

/-- Descending order on `start_date`: `a` before `b` when
`b.start_date <= a.start_date` in the stored lexicographic ordering
(`ORDER BY start_date DESC`). -/
def startDateGe (a b : Subscription) : Prop :=
  strLe b.start_date a.start_date = true

instance : DecidableRel startDateGe := fun a b => by
  unfold startDateGe; infer_instance

/-- `List` (`part_001` lines 47-73), renamed because `List` is taken in
Lean: apply the conjunctive optional filters and return the rows ordered
by `start_date` descending. The row order produced by the SQL engine is
modelled by an insertion sort under `startDateGe`; an empty result is the
empty list, not an error. -/
def listSubscriptions (tbl : List Subscription) (user_id : Option Nat)
    (service_name : Option String) : Except RepoError (List Subscription) :=
  .ok (List.insertionSort startDateGe (tbl.filter (matchesFilters user_id service_name)))

/-- `GetTotalCost` (`part_001` lines 75-108): validate both months first
and fail with the format error before any store access; otherwise issue
the aggregate query, whose value is `COALESCE(SUM(price), 0)` over the
rows passing the overlap predicate and the optional filters. -/
def GetTotalCost (tbl : List Subscription) (startMonth endMonth : String)
    (userID : Option Nat) (serviceName : Option String) :
    Except RepoError Int :=
  if !(isValidMonthYear startMonth) || !(isValidMonthYear endMonth) then
    .error (.validation monthFormatMsg)
  else
    .ok (((tbl.filter fun r =>
      overlaps startMonth endMonth r && matchesFilters userID serviceName r).map
        (fun r => r.price)).sum)

/-- `Update` (`part_001` lines 115-141): a single `UPDATE ... SET
service_name, price, user_id, start_date, end_date WHERE id = :id`.
A matched row with `price <= 0` violates the `CHECK` of `part_003` and
the statement fails; otherwise `rowsAffected = 0` (no row with that id)
is the not-found error, and a successful call replaces the five mutable
fields of every matched row, leaving `id` and all other rows unchanged. -/
def Update (tbl : List Subscription) (sub : Subscription) :
    Except RepoError Unit × List Subscription :=
  if sub.price ≤ 0 && tbl.any (fun r => r.id = sub.id) then
    (.error (.persistence "нарушение ограничения таблицы subscriptions"), tbl)
  else if tbl.any (fun r => r.id = sub.id) then
    (.ok (), tbl.map fun r =>
      if r.id = sub.id then
        ⟨r.id, sub.service_name, sub.price, sub.user_id,
         sub.start_date, sub.end_date⟩
      else r)
  else
    (.error (.notFound "подписка не найдена"), tbl)

/-- The full update path of the program
(`handler.UpdateSubscription`, `subscription.go`): validate
`service_name` non-empty, `price > 0` and `start_date` well-formed
"MM-YYYY" in source order — each failure is a 400-level validation error
issued before any store access — then call the repository `Update` on
the record built from the path id and the validated fields. The
`user_id` UUID parse of the handler is total in this model
(`user_id : Nat`). -/
def UpdateSubscription (tbl : List Subscription) (id : Nat)
    (service_name : String) (price : Int) (user_id : Nat)
    (start_date : String) (end_date : Option String) :
    Except RepoError Unit × List Subscription :=
  if service_name = "" then
    (.error (.validation "service_name не может быть пустым"), tbl)
  else if price ≤ 0 then
    (.error (.validation "price должен быть положительным целым числом"), tbl)
  else if !(isValidMonthYear start_date) then
    (.error (.validation "start_date должен быть в формате MM-YYYY"), tbl)
  else
    Update tbl ⟨id, service_name, price, user_id, start_date, end_date⟩

/-- `Delete` (`part_001` lines 143-160): `DELETE FROM subscriptions WHERE
id = $1`; `rowsAffected = 0` is the not-found error, otherwise the
matching rows are removed. -/
def Delete (tbl : List Subscription) (id : Nat) :
    Except RepoError Unit × List Subscription :=
  if tbl.any (fun r => r.id = id) then
    (.ok (), tbl.filter (fun r => !(r.id = id)))
  else
    (.error (.notFound "подписка не найдена"), tbl)


/-! ## Order and lookup lemmas -/

/-- The storage invariant of `part_003`: every stored row has a positive
price. -/
def allPos (tbl : List Subscription) : Prop := ∀ r ∈ tbl, 0 < r.price

theorem leChars_total (a b : List Char) : leChars a b = true ∨ leChars b a = true := by
  induction a generalizing b with
  | nil => left; rfl
  | cons c cs ih =>
    cases b with
    | nil => right; rfl
    | cons d ds =>
      rcases Nat.lt_trichotomy c.toNat d.toNat with h | h | h
      · left; simp [leChars, h]
      · have h1 : ¬ c.toNat < d.toNat := by omega
        have h2 : ¬ d.toNat < c.toNat := by omega
        rcases ih ds with hcd | hdc
        · left; simp [leChars, h1, h2, hcd]
        · right; simp [leChars, h1, h2, hdc]
      · right; simp [leChars, h]

theorem leChars_trans (a b c : List Char) (hab : leChars a b = true)
    (hbc : leChars b c = true) : leChars a c = true := by
  induction a generalizing b c with
  | nil => rfl
  | cons x xs ih =>
    cases b with
    | nil => simp [leChars] at hab
    | cons y ys =>
      cases c with
      | nil => simp [leChars] at hbc
      | cons z zs =>
        simp only [leChars] at hab hbc ⊢
        by_cases hxy : x.toNat < y.toNat
        · by_cases hyz : y.toNat < z.toNat
          · simp [show x.toNat < z.toNat from by omega]
          · by_cases hzy : z.toNat < y.toNat
            · simp [hyz, hzy] at hbc
            · simp [show x.toNat < z.toNat from by omega]
        · by_cases hyx : y.toNat < x.toNat
          · simp [hxy, hyx] at hab
          · have hxeqy : x.toNat = y.toNat := by omega
            rw [if_neg hxy, if_neg hyx] at hab
            by_cases hyz : y.toNat < z.toNat
            · simp [show x.toNat < z.toNat from by omega]
            · by_cases hzy : z.toNat < y.toNat
              · simp [hyz, hzy] at hbc
              · rw [if_neg hyz, if_neg hzy] at hbc
                have hxz : ¬ x.toNat < z.toNat := by omega
                have hzx : ¬ z.toNat < x.toNat := by omega
                rw [if_neg hxz, if_neg hzx]
                exact ih ys zs hab hbc

theorem strLe_total (a b : String) : strLe a b = true ∨ strLe b a = true :=
  leChars_total a.data b.data

theorem strLe_trans (a b c : String) (hab : strLe a b = true)
    (hbc : strLe b c = true) : strLe a c = true :=
  leChars_trans a.data b.data c.data hab hbc

instance : IsTotal Subscription startDateGe :=
  ⟨fun a b => by
    unfold startDateGe
    rcases strLe_total b.start_date a.start_date with h | h
    · left; exact h
    · right; exact h⟩

instance : IsTrans Subscription startDateGe :=
  ⟨fun a b c hab hbc => strLe_trans c.start_date b.start_date a.start_date hbc hab⟩

theorem find?_append_of_not_found {p : Subscription → Bool}
    (tbl : List Subscription) (r : Subscription)
    (h : ∀ x ∈ tbl, p x = false) (hr : p r = true) :
    List.find? p (tbl ++ [r]) = some r := by
  induction tbl with
  | nil => simp [List.find?, hr]
  | cons x xs ih =>
    have hx : p x = false := h x (by simp)
    simp only [List.cons_append, List.find?, hx]
    exact ih (fun y hy => h y (by simp [hy]))


/-! ## Claims -/

/-- C1: for every table state and well-formed "MM-YYYY" months, with any
optional filters, `GetTotalCost` returns the sum of `price` over exactly
the rows that pass the filters and satisfy
`(end_date absent OR end_date >= startMonth) AND start_date <= endMonth`
under lexicographic comparison of the stored tokens; no matching row
yields `0`, not an error; and the boundary subscription
(`start_date = end_date = "01-2025"`, price 100) is counted by
`GetTotalCost("01-2025","01-2025")` and not by
`GetTotalCost("02-2025","02-2025")`. -/
theorem getTotalCost_sums_overlapping_rows :
    (∀ (tbl : List Subscription) (s e : String) (u : Option Nat) (v : Option String),
      isValidMonthYear s = true → isValidMonthYear e = true →
      GetTotalCost tbl s e u v =
        .ok (((tbl.filter fun r =>
          matchesFilters u v r &&
          ((match r.end_date with
            | none => true
            | some d => strLe s d) && strLe r.start_date e)).map
              (fun r => r.price)).sum)) ∧
    (∀ (tbl : List Subscription) (s e : String) (u : Option Nat) (v : Option String),
      isValidMonthYear s = true → isValidMonthYear e = true →
      (tbl.filter fun r =>
        matchesFilters u v r &&
        ((match r.end_date with
          | none => true
          | some d => strLe s d) && strLe r.start_date e)) = [] →
      GetTotalCost tbl s e u v = .ok 0) ∧
    GetTotalCost [⟨1, "B", 100, 7, "01-2025", some "01-2025"⟩]
      "01-2025" "01-2025" none none = .ok 100 ∧
    GetTotalCost [⟨1, "B", 100, 7, "01-2025", some "01-2025"⟩]
      "02-2025" "02-2025" none none = .ok 0 := by
  have key : ∀ (tbl : List Subscription) (s e : String) (u : Option Nat) (v : Option String),
      isValidMonthYear s = true → isValidMonthYear e = true →
      GetTotalCost tbl s e u v =
        .ok (((tbl.filter fun r =>
          matchesFilters u v r &&
          ((match r.end_date with
            | none => true
            | some d => strLe s d) && strLe r.start_date e)).map
              (fun r => r.price)).sum) := by
    intro tbl s e u v hs he
    have hpred : (fun r => overlaps s e r && matchesFilters u v r) =
        (fun r => matchesFilters u v r &&
          ((match r.end_date with
            | none => true
            | some d => strLe s d) && strLe r.start_date e)) := by
      funext r
      unfold overlaps
      rw [Bool.and_comm]
    unfold GetTotalCost
    rw [hs, he, hpred]
    simp
  refine ⟨key, ?_, by rfl, by rfl⟩
  intro tbl s e u v hs he hempty
  rw [key tbl s e u v hs he, hempty]
  rfl

theorem getTotalCost_sums_overlapping_rows_witness :
    GetTotalCost [] "01-2025" "01-2025" none none = .ok 0 :=
  getTotalCost_sums_overlapping_rows.2.1 [] "01-2025" "01-2025" none none
    rfl rfl rfl

/-- C2 counterexample: with the well-formed inverted range
`startMonth = "06-2025" > endMonth = "03-2025"`, a table holding one
subscription whose stored period spans both bounds makes `GetTotalCost`
return 100, not the 0 the claim asserts: the code performs no ordering
check and the overlap predicate is satisfiable on an inverted range. -/
theorem getTotalCost_inverted_range_nonzero :
    strLe "06-2025" "03-2025" = false ∧
    isValidMonthYear "06-2025" = true ∧
    isValidMonthYear "03-2025" = true ∧
    GetTotalCost [⟨1, "Netflix", 100, 7, "01-2025", some "12-2025"⟩]
      "06-2025" "03-2025" none none = .ok 100 ∧
    GetTotalCost [⟨1, "Netflix", 100, 7, "01-2025", some "12-2025"⟩]
      "06-2025" "03-2025" none none ≠ .ok 0 := by
  refine ⟨rfl, rfl, rfl, rfl, ?_⟩
  intro h
  have h100 : (100 : Int) = 0 := Except.ok.inj h
  exact absurd h100 (by decide)

/-- C2 (amended): for well-formed months with `startMonth` strictly above
`endMonth` in the stored lexicographic ordering, `GetTotalCost` performs
no ordering check: it evaluates the same overlap predicate and returns
its sum, which is 0 only when no row satisfies the predicate — a
subscription whose stored period spans both bounds is still counted, so
an inverted range does not in general yield 0. -/
theorem getTotalCost_inverted_range_same_predicate :
    (∀ (tbl : List Subscription) (s e : String) (u : Option Nat) (v : Option String),
      isValidMonthYear s = true → isValidMonthYear e = true →
      strLe s e = false →
      GetTotalCost tbl s e u v =
        .ok (((tbl.filter fun r =>
          overlaps s e r && matchesFilters u v r).map (fun r => r.price)).sum)) ∧
    (∃ tbl : List Subscription,
      GetTotalCost tbl "06-2025" "03-2025" none none = .ok 400) := by
  constructor
  · intro tbl s e u v hs he _
    unfold GetTotalCost
    rw [hs, he]
    simp
  · exact ⟨[⟨1, "Netflix", 400, 7, "01-2025", none⟩], rfl⟩

theorem getTotalCost_inverted_range_same_predicate_witness :
    GetTotalCost [⟨2, "Spotify", 250, 9, "02-2025", some "12-2025"⟩]
      "06-2025" "03-2025" none none = .ok 250 :=
  (getTotalCost_inverted_range_same_predicate.1
    [⟨2, "Spotify", 250, 9, "02-2025", some "12-2025"⟩]
    "06-2025" "03-2025" none none rfl rfl rfl).trans rfl

/-- C3: a malformed "MM-YYYY" month makes `GetTotalCost` fail with the
validation error in either position, with a result independent of the
table state (no query reaches the store), and makes the create path fail
with a validation error leaving the table unchanged (no insert is
issued). -/
theorem malformed_month_fails_before_store :
    ∀ (tbl : List Subscription) (m : String), isValidMonthYear m = false →
      (∀ (e : String) (u : Option Nat) (v : Option String),
        GetTotalCost tbl m e u v = .error (.validation monthFormatMsg)) ∧
      (∀ (s : String) (u : Option Nat) (v : Option String),
        GetTotalCost tbl s m u v = .error (.validation monthFormatMsg)) ∧
      (∀ (tbl2 : List Subscription) (e : String) (u : Option Nat) (v : Option String),
        GetTotalCost tbl m e u v = GetTotalCost tbl2 m e u v) ∧
      (∀ (newId : Nat) (sn : String) (p : Int) (uid : Nat) (ed : Option String),
        ∃ msg, CreateSubscription tbl newId sn p uid m ed =
          (.error (.validation msg), tbl)) := by
  intro tbl m hm
  refine ⟨?_, ?_, ?_, ?_⟩
  · intro e u v
    unfold GetTotalCost
    rw [hm]
    simp
  · intro s u v
    unfold GetTotalCost
    rw [hm]
    simp
  · intro tbl2 e u v
    unfold GetTotalCost
    rw [hm]
    simp
  · intro newId sn p uid ed
    unfold CreateSubscription
    by_cases hsn : sn = ""
    · exact ⟨"service_name не может быть пустым", by rw [if_pos hsn]⟩
    · by_cases hp : p ≤ 0
      · exact ⟨"price должен быть положительным целым числом",
          by rw [if_neg hsn, if_pos hp]⟩
      · refine ⟨"start_date должен быть в формате MM-YYYY", ?_⟩
        rw [if_neg hsn, if_neg hp, if_pos]
        rw [hm]
        rfl

theorem malformed_month_fails_before_store_witness :
    GetTotalCost [] "2025-07" "01-2025" none none =
      .error (.validation monthFormatMsg) :=
  (malformed_month_fails_before_store [] "2025-07" rfl).1 "01-2025" none none

/-- C4: `List` always succeeds; the result holds exactly the rows passing
every present filter (absent filters impose no restriction, so
`(None, None)` keeps all rows, one present filter restricts by equality,
both filters intersect), as a permutation of the filtered table, ordered
by `start_date` descending under the stored lexicographic comparison; an
empty result is the empty sequence, not an error. -/
theorem list_filters_and_orders :
    ∀ (tbl : List Subscription) (u : Option Nat) (v : Option String),
      ∃ l, listSubscriptions tbl u v = .ok l ∧
        List.Perm l (tbl.filter (matchesFilters u v)) ∧
        List.Sorted startDateGe l ∧
        (∀ r, r ∈ l ↔ r ∈ tbl ∧ matchesFilters u v r = true) ∧
        (∀ r, matchesFilters none none r = true) := by
  intro tbl u v
  refine ⟨_, rfl, List.perm_insertionSort _ _, List.sorted_insertionSort _ _,
    ?_, fun r => rfl⟩
  intro r
  rw [List.mem_insertionSort]
  exact List.mem_filter

theorem list_filters_and_orders_witness :
    listSubscriptions ([] : List Subscription) none none = .ok [] := by
  obtain ⟨l, hok, hperm, -, -, -⟩ := list_filters_and_orders [] none none
  rw [List.filter_nil] at hperm
  rw [hok, hperm.eq_nil]

/-- C5: the statement text built by `List` and by `GetTotalCost` depends
only on which optional filters are present, never on the filter values;
each present filter appends exactly one AND-ed predicate to the text and
exactly one positional bind argument, `user_id` before `service_name`,
and filter values appear only in the argument list, never in the text. -/
theorem query_depends_only_on_presence :
    (∀ (u1 u2 : Option Nat) (v1 v2 : Option String),
      u1.isSome = u2.isSome → v1.isSome = v2.isSome →
      (listStmt u1 v1).text = (listStmt u2 v2).text) ∧
    (∀ (a1 b1 a2 b2 : String) (u1 u2 : Option Nat) (v1 v2 : Option String),
      u1.isSome = u2.isSome → v1.isSome = v2.isSome →
      (totalCostStmt a1 b1 u1 v1).text = (totalCostStmt a2 b2 u2 v2).text) ∧
    ((listStmt none none).text =
        "SELECT * FROM subscriptions WHERE 1=1 ORDER BY start_date DESC" ∧
     (∀ x, (listStmt (some x) none).text =
        "SELECT * FROM subscriptions WHERE 1=1 AND user_id = $1" ++
        " ORDER BY start_date DESC") ∧
     (∀ y, (listStmt none (some y)).text =
        "SELECT * FROM subscriptions WHERE 1=1 AND service_name = $1" ++
        " ORDER BY start_date DESC") ∧
     (∀ x y, (listStmt (some x) (some y)).text =
        "SELECT * FROM subscriptions WHERE 1=1 AND user_id = $1" ++
        " AND service_name = $2 ORDER BY start_date DESC")) ∧
    (∀ (u : Option Nat) (v : Option String),
      (listStmt u v).args =
        (match u with | none => [] | some x => [SqlArg.u x]) ++
        (match v with | none => [] | some x => [SqlArg.s x])) ∧
    (∀ (a b : String),
      (∀ (x : Nat) (y : String),
        (totalCostStmt a b (some x) (some y)).text =
          "SELECT COALESCE(SUM(price), 0) FROM subscriptions " ++
          "WHERE (end_date IS NULL OR end_date >= $1) AND start_date <= $2" ++
          " AND user_id = $3 AND service_name = $4") ∧
      (∀ (x : Nat), (totalCostStmt a b (some x) none).text =
          "SELECT COALESCE(SUM(price), 0) FROM subscriptions " ++
          "WHERE (end_date IS NULL OR end_date >= $1) AND start_date <= $2" ++
          " AND user_id = $3") ∧
      (∀ (y : String), (totalCostStmt a b none (some y)).text =
          "SELECT COALESCE(SUM(price), 0) FROM subscriptions " ++
          "WHERE (end_date IS NULL OR end_date >= $1) AND start_date <= $2" ++
          " AND service_name = $3") ∧
      (totalCostStmt a b none none).text =
          "SELECT COALESCE(SUM(price), 0) FROM subscriptions " ++
          "WHERE (end_date IS NULL OR end_date >= $1) AND start_date <= $2") ∧
    (∀ (a b : String) (u : Option Nat) (v : Option String),
      (totalCostStmt a b u v).args =
        [SqlArg.s a, SqlArg.s b] ++
        (match u with | none => [] | some x => [SqlArg.u x]) ++
        (match v with | none => [] | some x => [SqlArg.s x])) := by
  refine ⟨?_, ?_, ⟨rfl, fun x => rfl, fun y => rfl, ?_⟩, ?_,
    fun a b => ⟨?_, ?_, ?_, ?_⟩, ?_⟩
  · intro u1 u2 v1 v2 hu hv
    cases u1 <;> cases u2 <;> cases v1 <;> cases v2 <;> first | rfl | simp_all
  · intro a1 b1 a2 b2 u1 u2 v1 v2 hu hv
    cases u1 <;> cases u2 <;> cases v1 <;> cases v2 <;> first | rfl | simp_all
  · intro x y
    have h : (listStmt (some x) (some y)).text =
        (listStmt (some 0) (some "")).text := rfl
    rw [h]
    decide
  · intro u v
    cases u <;> cases v <;> rfl
  · intro x y
    have h : (totalCostStmt a b (some x) (some y)).text =
        (totalCostStmt "" "" (some 0) (some "")).text := rfl
    rw [h]
    decide
  · intro x
    have h : (totalCostStmt a b (some x) none).text =
        (totalCostStmt "" "" (some 0) none).text := rfl
    rw [h]
    decide
  · intro y
    have h : (totalCostStmt a b none (some y)).text =
        (totalCostStmt "" "" none (some "")).text := rfl
    rw [h]
    decide
  · have h : (totalCostStmt a b none none).text =
        (totalCostStmt "" "" none none).text := rfl
    rw [h]
    decide
  · intro a b u v
    cases u <;> cases v <;> rfl

theorem query_depends_only_on_presence_witness :
    (listStmt (some 1) none).text = (listStmt (some 2) none).text :=
  query_depends_only_on_presence.1 (some 1) (some 2) none none rfl rfl

/-- C6: `Update` of a record whose id has no stored row fails with the
not-found error (zero rows affected) and leaves the table unchanged;
`Delete` of such an id likewise; and a successful `Update` affects at
least one row, i.e. some stored row carries the updated id. -/
theorem update_delete_missing_id_notFound :
    (∀ (tbl : List Subscription) (s : Subscription) (i : Nat),
      (∀ r ∈ tbl, r.id ≠ s.id) → (∀ r ∈ tbl, r.id ≠ i) →
      Update tbl s = (.error (.notFound "подписка не найдена"), tbl) ∧
      Delete tbl i = (.error (.notFound "подписка не найдена"), tbl)) ∧
    (∀ (tbl : List Subscription) (s : Subscription),
      (Update tbl s).1 = .ok () → ∃ r ∈ tbl, r.id = s.id) := by
  constructor
  · intro tbl s i hs hi
    have hs' : tbl.any (fun r => r.id = s.id) = false := by
      rw [List.any_eq_false]
      intro r hr
      simp [hs r hr]
    have hi' : tbl.any (fun r => r.id = i) = false := by
      rw [List.any_eq_false]
      intro r hr
      simp [hi r hr]
    constructor
    · unfold Update
      rw [hs']
      simp
    · unfold Delete
      rw [hi']
      simp
  · intro tbl s hok
    by_cases hany : tbl.any (fun r => r.id = s.id) = true
    · rw [List.any_eq_true] at hany
      obtain ⟨r, hr, hval⟩ := hany
      exact ⟨r, hr, by simpa using hval⟩
    · rw [Bool.not_eq_true] at hany
      unfold Update at hok
      rw [hany] at hok
      simp at hok

theorem update_delete_missing_id_notFound_witness :
    Update [] ⟨5, "a", 1, 2, "01-2025", none⟩ =
      (.error (.notFound "подписка не найдена"), []) ∧
    Delete [] 5 = (.error (.notFound "подписка не найдена"), []) :=
  update_delete_missing_id_notFound.1 [] ⟨5, "a", 1, 2, "01-2025", none⟩ 5
    (fun r hr => absurd hr (List.not_mem_nil r))
    (fun r hr => absurd hr (List.not_mem_nil r))

/-- C7: for a valid record (non-empty `service_name`, positive price,
well-formed `start_date`, id not yet stored), the create path succeeds,
appends exactly that record, and `GetByID` of its id then returns a
record equal to it in every field. -/
theorem create_getByID_roundtrip :
    ∀ (tbl : List Subscription) (r : Subscription),
      r.service_name ≠ "" → 0 < r.price → isValidMonthYear r.start_date = true →
      (∀ x ∈ tbl, x.id ≠ r.id) →
      CreateSubscription tbl r.id r.service_name r.price r.user_id
        r.start_date r.end_date = (.ok (), tbl ++ [r]) ∧
      GetByID (tbl ++ [r]) r.id = .ok r := by
  intro tbl r hsn hp hsd hids
  have hany : tbl.any (fun x => x.id = r.id) = false := by
    rw [List.any_eq_false]
    intro x hx
    simp [hids x hx]
  have hcreate : Create tbl r = (.ok (), tbl ++ [r]) := by
    unfold Create
    rw [hany]
    rw [if_neg]
    simp
    omega
  constructor
  · unfold CreateSubscription
    rw [if_neg hsn, if_neg (by omega : ¬ r.price ≤ 0), hsd]
    simpa using hcreate
  · unfold GetByID
    rw [find?_append_of_not_found tbl r
      (fun x hx => by simp [hids x hx]) (by simp)]

theorem create_getByID_roundtrip_witness :
    CreateSubscription [] 3 "Netflix" 400 7 "07-2025" none =
      (.ok (), [⟨3, "Netflix", 400, 7, "07-2025", none⟩]) ∧
    GetByID [⟨3, "Netflix", 400, 7, "07-2025", none⟩] 3 =
      .ok ⟨3, "Netflix", 400, 7, "07-2025", none⟩ :=
  create_getByID_roundtrip [] ⟨3, "Netflix", 400, 7, "07-2025", none⟩
    (by decide) (by decide) rfl (fun x hx => absurd hx (List.not_mem_nil x))

/-- C8: every stored row has positive price and every operation —
driver-level insert, update and delete, and the create and update paths
of the program — preserves this invariant; a record with `price ≤ 0` is
never stored and never clamped: the driver-level insert always fails
with the constraint error, a driver-level update that matches a stored
row fails with the constraint error, a driver-level update never changes
the table, and the program's create and update paths both fail with a
validation error before any store access — each failure leaving the
table unchanged. -/
theorem price_positive_invariant :
    (∀ (tbl : List Subscription) (s : Subscription), allPos tbl →
      allPos (Create tbl s).2 ∧ allPos (Update tbl s).2) ∧
    (∀ (tbl : List Subscription) (i : Nat), allPos tbl →
      allPos (Delete tbl i).2) ∧
    (∀ (tbl : List Subscription) (newId : Nat) (sn : String) (p : Int)
       (uid : Nat) (sd : String) (ed : Option String), allPos tbl →
      allPos (CreateSubscription tbl newId sn p uid sd ed).2 ∧
      allPos (UpdateSubscription tbl newId sn p uid sd ed).2) ∧
    (∀ (tbl : List Subscription) (s : Subscription), s.price ≤ 0 →
      Create tbl s =
        (.error (.persistence "нарушение ограничения таблицы subscriptions"),
         tbl) ∧
      ((∃ r ∈ tbl, r.id = s.id) →
        Update tbl s =
          (.error (.persistence "нарушение ограничения таблицы subscriptions"),
           tbl)) ∧
      (Update tbl s).2 = tbl ∧
      (∀ i : Nat, ∃ m,
        CreateSubscription tbl i s.service_name s.price s.user_id
          s.start_date s.end_date = (.error (.validation m), tbl)) ∧
      (∀ i : Nat, ∃ m,
        UpdateSubscription tbl i s.service_name s.price s.user_id
          s.start_date s.end_date = (.error (.validation m), tbl))) := by
  have hCreate : ∀ (tbl : List Subscription) (s : Subscription), allPos tbl →
      allPos (Create tbl s).2 := by
    intro tbl s hall
    unfold Create
    by_cases hp : s.price ≤ 0
    · simp [hp]
      exact hall
    · by_cases hany : tbl.any (fun r => r.id = s.id) = true
      · simp [hany]
        exact hall
      · rw [Bool.not_eq_true] at hany
        simp [hp, hany]
        intro r hr
        rcases List.mem_append.mp hr with h | h
        · exact hall r h
        · rw [List.mem_singleton] at h
          subst h
          omega
  have hUpd : ∀ (tbl : List Subscription) (s : Subscription), allPos tbl →
      allPos (Update tbl s).2 := by
    intro tbl s hall
    unfold Update
    by_cases hany : tbl.any (fun r => r.id = s.id) = true
    · by_cases hp : s.price ≤ 0
      · simp [hany, hp]
        exact hall
      · simp [hany, hp]
        intro r hr
        rcases List.mem_map.mp hr with ⟨x, hx, hxr⟩
        by_cases hid : x.id = s.id
        · rw [if_pos hid] at hxr
          subst hxr
          simpa using by omega
        · rw [if_neg hid] at hxr
          subst hxr
          exact hall x hx
    · rw [Bool.not_eq_true] at hany
      simp [hany]
      exact hall
  refine ⟨?_, ?_, ?_, ?_⟩
  · intro tbl s hall
    exact ⟨hCreate tbl s hall, hUpd tbl s hall⟩
  · intro tbl i hall
    unfold Delete
    by_cases hany : tbl.any (fun r => r.id = i) = true
    · simp [hany]
      intro r hr
      exact hall r (List.mem_of_mem_filter hr)
    · rw [Bool.not_eq_true] at hany
      simp [hany]
      exact hall
  · intro tbl newId sn p uid sd ed hall
    constructor
    · unfold CreateSubscription
      by_cases hsn : sn = ""
      · simp [hsn]
        exact hall
      · by_cases hp : p ≤ 0
        · simp [hsn, hp]
          exact hall
        · by_cases hsd : isValidMonthYear sd = true
          · simp [hsn, hp, hsd]
            exact hCreate tbl _ hall
          · rw [Bool.not_eq_true] at hsd
            simp [hsn, hp, hsd]
            exact hall
    · unfold UpdateSubscription
      by_cases hsn : sn = ""
      · simp [hsn]
        exact hall
      · by_cases hp : p ≤ 0
        · simp [hsn, hp]
          exact hall
        · by_cases hsd : isValidMonthYear sd = true
          · simp [hsn, hp, hsd]
            exact hUpd tbl _ hall
          · rw [Bool.not_eq_true] at hsd
            simp [hsn, hp, hsd]
            exact hall
  · intro tbl s hp
    refine ⟨?_, ?_, ?_, ?_, ?_⟩
    · unfold Create
      simp [hp]
    · intro hex
      obtain ⟨r0, hr0, hid0⟩ := hex
      have hany : tbl.any (fun r => r.id = s.id) = true := by
        rw [List.any_eq_true]
        exact ⟨r0, hr0, by simp [hid0]⟩
      unfold Update
      rw [if_pos (by simp [hany, hp])]
    · unfold Update
      by_cases hany : tbl.any (fun r => r.id = s.id) = true
      · simp [hany, hp]
      · rw [Bool.not_eq_true] at hany
        simp [hany, hp]
    · intro i
      unfold CreateSubscription
      by_cases hsn : s.service_name = ""
      · exact ⟨"service_name не может быть пустым", by rw [if_pos hsn]⟩
      · exact ⟨"price должен быть положительным целым числом",
          by rw [if_neg hsn, if_pos hp]⟩
    · intro i
      unfold UpdateSubscription
      by_cases hsn : s.service_name = ""
      · exact ⟨"service_name не может быть пустым", by rw [if_pos hsn]⟩
      · exact ⟨"price должен быть положительным целым числом",
          by rw [if_neg hsn, if_pos hp]⟩

theorem price_positive_invariant_witness :
    Create [] ⟨1, "a", 0, 2, "01-2025", none⟩ =
      (.error (.persistence "нарушение ограничения таблицы subscriptions"),
       []) :=
  (price_positive_invariant.2.2.2 [] ⟨1, "a", 0, 2, "01-2025", none⟩
    (by decide)).1

/-- C9: a successful `Update` on a table containing the target id
replaces exactly the five mutable fields of the matched row with the
record's values, keeps the row's id, and leaves every row with a
different id entirely unchanged (the table's id sequence is unchanged). -/
theorem update_replaces_single_row :
    ∀ (tbl : List Subscription) (s : Subscription),
      (∃ r ∈ tbl, r.id = s.id) → 0 < s.price →
      Update tbl s =
        (.ok (), tbl.map fun r =>
          if r.id = s.id then
            ⟨r.id, s.service_name, s.price, s.user_id,
             s.start_date, s.end_date⟩
          else r) ∧
      (∀ r ∈ tbl, r.id ≠ s.id → r ∈ (Update tbl s).2) ∧
      (Update tbl s).2.map (fun r => r.id) = tbl.map (fun r => r.id) := by
  intro tbl s hex hp
  obtain ⟨r0, hr0, hid0⟩ := hex
  have hany : tbl.any (fun r => r.id = s.id) = true := by
    rw [List.any_eq_true]
    exact ⟨r0, hr0, by simp [hid0]⟩
  have hmain : Update tbl s =
      (.ok (), tbl.map fun r =>
        if r.id = s.id then
          ⟨r.id, s.service_name, s.price, s.user_id,
           s.start_date, s.end_date⟩
        else r) := by
    unfold Update
    rw [hany]
    simp [show ¬ s.price ≤ 0 from by omega]
  refine ⟨hmain, ?_, ?_⟩
  · intro r hr hne
    rw [hmain]
    exact List.mem_map.mpr ⟨r, hr, by rw [if_neg hne]⟩
  · rw [hmain]
    simp only [List.map_map]
    apply List.map_congr_left
    intro r _
    by_cases h : r.id = s.id <;> simp [h]

theorem update_replaces_single_row_witness :
    Update [⟨1, "a", 5, 2, "01-2025", none⟩]
        ⟨1, "b", 7, 3, "02-2025", some "03-2025"⟩ =
      (.ok (), [⟨1, "b", 7, 3, "02-2025", some "03-2025"⟩]) := by
  have h := (update_replaces_single_row [⟨1, "a", 5, 2, "01-2025", none⟩]
    ⟨1, "b", 7, 3, "02-2025", some "03-2025"⟩
    ⟨⟨1, "a", 5, 2, "01-2025", none⟩, by simp, rfl⟩ (by decide)).1
  rw [h]
  rfl

/-- The accept set the claim describes for the month check: exactly a
two-digit month between 01 and 12, a hyphen, and a four-digit year,
with nothing before or after. -/
def monthTokenSpec (s : String) : Prop :=
  ∃ m1 m2 y1 y2 y3 y4 : Char,
    s.data = [m1, m2, '-', y1, y2, y3, y4] ∧
    m1.isDigit = true ∧ m2.isDigit = true ∧
    y1.isDigit = true ∧ y2.isDigit = true ∧
    y3.isDigit = true ∧ y4.isDigit = true ∧
    1 ≤ (m1.toNat - 48) * 10 + (m2.toNat - 48) ∧
    (m1.toNat - 48) * 10 + (m2.toNat - 48) ≤ 12

/-- C10: the month-validity check accepts a string iff it is exactly a
two-digit month `01`..`12`, a hyphen, and a four-digit year; an unpadded
month, a zero month, a two-digit year, and leading or trailing extra
characters are all rejected, and `GetTotalCost` reports for each of them
exactly the same validation error as for `"13-2025"`. -/
theorem isValidMonthYear_characterization :
    (∀ s : String, isValidMonthYear s = true ↔ monthTokenSpec s) ∧
    isValidMonthYear "1-2025" = false ∧
    isValidMonthYear "00-2025" = false ∧
    isValidMonthYear "01-25" = false ∧
    isValidMonthYear "x01-2025" = false ∧
    isValidMonthYear "01-2025x" = false ∧
    isValidMonthYear "13-2025" = false ∧
    (∀ (tbl : List Subscription) (e : String) (u : Option Nat)
       (v : Option String),
      GetTotalCost tbl "1-2025" e u v = GetTotalCost tbl "13-2025" e u v ∧
      GetTotalCost tbl "00-2025" e u v = GetTotalCost tbl "13-2025" e u v ∧
      GetTotalCost tbl "01-25" e u v = GetTotalCost tbl "13-2025" e u v ∧
      GetTotalCost tbl "x01-2025" e u v = GetTotalCost tbl "13-2025" e u v ∧
      GetTotalCost tbl "01-2025x" e u v = GetTotalCost tbl "13-2025" e u v ∧
      GetTotalCost tbl "13-2025" e u v =
        .error (.validation monthFormatMsg)) := by
  refine ⟨?_, rfl, rfl, rfl, rfl, rfl, rfl,
    fun tbl e u v => ⟨rfl, rfl, rfl, rfl, rfl, rfl⟩⟩
  intro s
  constructor
  · intro h
    unfold isValidMonthYear parseMonthYear at h
    cases hd : s.data with
    | nil => rw [hd] at h; simp [getnum2] at h
    | cons c1 t1 =>
      cases t1 with
      | nil => rw [hd] at h; simp [getnum2] at h
      | cons c2 t2 =>
        rw [hd] at h
        by_cases h12 : (c1.isDigit && c2.isDigit) = true
        · rw [show getnum2 (c1 :: c2 :: t2) =
            some ((c1.toNat - 48) * 10 + (c2.toNat - 48), t2) from by
              simp [getnum2, h12]] at h
          cases t2 with
          | nil => simp at h
          | cons c3 t3 =>
            by_cases h3 : c3 = '-'
            · subst h3
              simp only [if_pos rfl, if_true] at h
              cases t3 with
              | nil => simp [getnum4] at h
              | cons d1 t4 =>
                cases t4 with
                | nil => simp [getnum4] at h
                | cons d2 t5 =>
                  cases t5 with
                  | nil => simp [getnum4] at h
                  | cons d3 t6 =>
                    cases t6 with
                    | nil => simp [getnum4] at h
                    | cons d4 t7 =>
                      by_cases h4 :
                        (d1.isDigit && d2.isDigit && d3.isDigit &&
                          d4.isDigit) = true
                      · rw [show getnum4 (d1 :: d2 :: d3 :: d4 :: t7) =
                          some ((d1.toNat - 48) * 1000 + (d2.toNat - 48) * 100 +
                            (d3.toNat - 48) * 10 + (d4.toNat - 48), t7) from by
                              simp [getnum4, h4]] at h
                        by_cases h7 : t7 = []
                        · subst h7
                          simp only [if_pos rfl, if_true] at h
                          by_cases hm : (1 ≤ (c1.toNat - 48) * 10 +
                              (c2.toNat - 48) &&
                              (c1.toNat - 48) * 10 + (c2.toNat - 48) ≤ 12) =
                              true
                          · rw [Bool.and_eq_true, decide_eq_true_eq,
                              decide_eq_true_eq] at hm
                            rw [Bool.and_eq_true] at h12
                            rw [Bool.and_eq_true, Bool.and_eq_true,
                              Bool.and_eq_true] at h4
                            exact ⟨c1, c2, d1, d2, d3, d4, hd,
                              h12.1, h12.2, h4.1.1.1, h4.1.1.2, h4.1.2, h4.2,
                              hm.1, hm.2⟩
                          · rw [Bool.not_eq_true] at hm
                            rw [hm] at h
                            simp at h
                        · simp [h7] at h
                      · rw [Bool.not_eq_true] at h4
                        rw [show getnum4 (d1 :: d2 :: d3 :: d4 :: t7) =
                          none from by simp [getnum4, h4]] at h
                        simp at h
            · simp [h3] at h
        · rw [Bool.not_eq_true] at h12
          rw [show getnum2 (c1 :: c2 :: t2) = none from by
            simp [getnum2, h12]] at h
          simp at h
  · rintro ⟨m1, m2, y1, y2, y3, y4, hdata, h1, h2, h3, h4, h5, h6, hlo, hhi⟩
    unfold isValidMonthYear parseMonthYear
    rw [hdata]
    rw [show getnum2 (m1 :: m2 :: '-' :: y1 :: y2 :: y3 :: y4 :: []) =
      some ((m1.toNat - 48) * 10 + (m2.toNat - 48),
        '-' :: y1 :: y2 :: y3 :: y4 :: []) from by simp [getnum2, h1, h2]]
    simp only [if_pos rfl, if_true]
    rw [show getnum4 (y1 :: y2 :: y3 :: y4 :: []) =
      some ((y1.toNat - 48) * 1000 + (y2.toNat - 48) * 100 +
        (y3.toNat - 48) * 10 + (y4.toNat - 48), ([] : List Char)) from by
          simp [getnum4, h3, h4, h5, h6]]
    simp only [if_pos rfl, if_true]
    rw [if_pos (by rw [Bool.and_eq_true, decide_eq_true_eq,
      decide_eq_true_eq]; exact ⟨hlo, hhi⟩)]
    rfl

theorem isValidMonthYear_characterization_witness :
    monthTokenSpec "07-2025" :=
  (isValidMonthYear_characterization.1 "07-2025").mp rfl

end GoEM
